import Mathlib

/-! Verification of the PDF Merger tool (`src/main.py`) against its specification.

The embedding models one run of the program over an abstract environment:
each candidate file on disk is a `PdfFile` carrying the answers the
filesystem and the PDF codec give at each point the program queries them
(existence, readability, byte size, the discovery-time open, and the
merge-time open together with the point at which the codec raises, if it
does).  Pages are abstract tokens (`Nat`); the merge accumulator is the
list of appended page tokens in order.
-/

namespace PDFMerger

/-- A candidate `.pdf` file in the input directory, together with the
behaviour of the filesystem and of the PDF codec on it during this run.

* `readPages` is the outcome of the discovery-time `PdfReader` open in
  `find_and_validate_pdf_files`: `none` if the open raises, `some n` for a
  document which opens with `n` pages.
* `mergePages` is the page sequence the merge-time `PdfReader` open in
  `merge_pdf_files` yields (the two opens are distinct events in the code,
  so they are modelled independently).
* `mergeFail` models the per-file `try` block of `merge_pdf_files`:
  `none` means no exception, `some k` means an exception is raised after
  exactly `k` pages of this file have already been added to the writer
  (`k = 0`: the re-open itself fails; `0 < k`: a page access or
  `add_page` fails mid-file). -/
structure PdfFile where
  name : String
  size : Nat
  fexists : Bool
  readable : Bool
  readPages : Option Nat
  mergePages : List Nat
  mergeFail : Option Nat
  deriving Repr, DecidableEq

/-- Reasons a candidate is excluded by `find_and_validate_pdf_files`,
one per `continue` branch, in source order. -/
inductive VReason where
  | notFound
  | notReadable
  | emptyFile
  | invalidPdf
  | zeroPages
  deriving Repr, DecidableEq

/-- The validation of one candidate in `find_and_validate_pdf_files`
(src/main.py lines 97-132): the chain of checks in source order, returning
the first failure, or `none` when the file is accepted. -/
def validateFile (f : PdfFile) : Option VReason :=
  if !f.fexists then some .notFound
  else if !f.readable then some .notReadable
  else if f.size = 0 then some .emptyFile
  else
    match f.readPages with
    | none => some .invalidPdf
    | some n => if n = 0 then some .zeroPages else none

/-- Function `find_and_validate_pdf_files` (src/main.py lines 79-135): keep, in
enumeration order, exactly the candidates passing every check. -/
def find_and_validate_pdf_files (l : List PdfFile) : List PdfFile :=
  l.filter fun f => (validateFile f).isNone

/-- ASCII lowercasing of one code point, as `str.lower()` acts on the
ASCII range. -/
def pyLower (n : Nat) : Nat := if 65 ≤ n ∧ n ≤ 90 then n + 32 else n

/-- The code points of a filename, lowercased: the value of
`x.name.lower()` as a comparable sequence. -/
def lowerCodes (s : String) : List Nat :=
  s.data.map fun c => pyLower c.toNat

/-- Lexicographic order on code-point sequences — how Python compares
the strings produced by the sort key. -/
def lexLe : List Nat → List Nat → Bool
  | [], _ => true
  | _ :: _, [] => false
  | a :: as, b :: bs =>
      if a < b then true else if b < a then false else lexLe as bs

/-- The sort key of `sort_files_by_preference`: `x.name.lower()`. -/
def nameKey (f : PdfFile) : List Nat := lowerCodes f.name

/-- The comparison `sorted` effectively uses under the key
`x.name.lower()`. -/
def nameLe (a b : PdfFile) : Prop :=
  lexLe (nameKey a) (nameKey b) = true

instance : DecidableRel nameLe := fun a b =>
  inferInstanceAs (Decidable (lexLe (nameKey a) (nameKey b) = true))

/-- Function `sort_files_by_preference` (src/main.py lines 137-148): Python's
`sorted(pdf_files, key=lambda x: x.name.lower())` is a stable ascending
sort under that key; a stable sort is uniquely determined by the
comparison, so it is embedded as the stable `insertionSort` under the
same comparison. -/
def sort_files_by_preference (l : List PdfFile) : List PdfFile :=
  l.insertionSort nameLe

/-- One entry of the `file_info` list built by `merge_pdf_files`. -/
structure FileInfo where
  filename : String
  pages : Nat
  file_size : Nat
  deriving Repr, DecidableEq

/-- The dictionary `merge_pdf_files` returns: `success: True` carries
output filename, `total_pages`, `total_files`, `output_size` and
`file_info`; `success: False` carries `error` and, only on the exception
path, `error_type`. -/
inductive MergeResult where
  | ok (output_file : String) (total_pages : Nat) (total_files : Nat)
      (output_size : Nat) (file_info : List FileInfo)
  | err (error : String) (error_type : Option String)
  deriving Repr, DecidableEq

/-- The mutable state of the merge loop in `merge_pdf_files`: the pages
accumulated in the `PdfWriter`, the `total_pages` counter, and the
`file_info` list. -/
structure MergeState where
  writerPages : List Nat
  total_pages : Nat
  file_info : List FileInfo
  deriving Repr, DecidableEq

/-- The `file_info` entry recorded for a successfully processed file. -/
def infoOf (f : PdfFile) : FileInfo :=
  ⟨f.name, f.mergePages.length, f.size⟩

/-- One iteration of the loop of `merge_pdf_files` (src/main.py lines
164-189).  Without an exception, every page is added to the writer, the
counter grows by the file's page count and an info entry is appended.
With an exception after `k` added pages, those `k` pages stay in the
writer (nothing is rolled back) but the counter and the info list are
left untouched, and the loop continues. -/
def stepFile (st : MergeState) (f : PdfFile) : MergeState :=
  match f.mergeFail with
  | none =>
      ⟨st.writerPages ++ f.mergePages,
       st.total_pages + f.mergePages.length,
       st.file_info ++ [infoOf f]⟩
  | some k =>
      ⟨st.writerPages ++ f.mergePages.take k,
       st.total_pages,
       st.file_info⟩

/-- The whole merge loop, from the empty writer and zero counter. -/
def mergeLoop (files : List PdfFile) : MergeState :=
  files.foldl stepFile ⟨[], 0, []⟩

/-- The pages of the accumulated output document, in order. -/
def mergeWriter (files : List PdfFile) : List Nat :=
  (mergeLoop files).writerPages

/-- Behaviour of the environment during the write and verify steps of
`merge_pdf_files`: whether `writer.write` raises (and with what message
and exception class name if it does), whether `output_file.exists()`
holds afterwards, and the byte size `stat` then reports. -/
structure WriteEnv where
  writeOk : Bool
  writeErr : String
  writeErrType : String
  outputPersists : Bool
  outputSize : Nat
  deriving Repr, DecidableEq

/-- Function `merge_pdf_files` (src/main.py lines 150-236): run the loop, write
the writer out, then the post-condition check on `output_file.exists()`.
An exception (only the write step can raise one that the per-file
handler does not absorb) lands in the outer `except` with the error
string and its type name; a missing output after a quiet write yields
the generic failure without an `error_type`. -/
def merge_pdf_files (files : List PdfFile) (outName : String)
    (env : WriteEnv) : MergeResult :=
  let st := mergeLoop files
  if env.writeOk then
    if env.outputPersists then
      .ok outName st.total_pages files.length env.outputSize st.file_info
    else
      .err "Output file not created" none
  else
    .err env.writeErr (some env.writeErrType)

/-- The pages a file actually leaves in the writer: all of them on
success, the first `k` on an exception after `k` appends. -/
def contributedPages (f : PdfFile) : List Nat :=
  match f.mergeFail with
  | none => f.mergePages
  | some k => f.mergePages.take k

/-- Whether the file's iteration of the merge loop completes without an
exception. -/
def mergeOk (f : PdfFile) : Bool := f.mergeFail.isNone

/-- Sum of the page counts of the files that did not fail mid-merge. -/
def nonFailedPageSum (files : List PdfFile) : Nat :=
  ((files.filter mergeOk).map fun f => f.mergePages.length).sum

/-- Pages left in the writer by files that did fail mid-merge. -/
def strayPageSum (files : List PdfFile) : Nat :=
  ((files.filter fun f => !mergeOk f).map fun f =>
    (contributedPages f).length).sum

/-- The validation pipeline exactly as the spec words it: the list of
predicates in the stated order (existence, readability, non-zero byte
size, successful codec open, page count at least 1), each paired with
its exclusion reason. -/
def specChecks : List ((PdfFile → Bool) × VReason) :=
  [⟨fun f => !f.fexists, .notFound⟩,
   ⟨fun f => !f.readable, .notReadable⟩,
   ⟨fun f => decide (f.size = 0), .emptyFile⟩,
   ⟨fun f => f.readPages.isNone, .invalidPdf⟩,
   ⟨fun f => decide (f.readPages = some 0), .zeroPages⟩]

/-- First failing predicate of `specChecks`, in order — the spec-shaped
short-circuiting validator, to be compared with `validateFile`. -/
def firstFailing (f : PdfFile) : Option VReason :=
  specChecks.findSome? fun c => if c.1 f then some c.2 else none

/-- What a run leaves in the output directory: a verbatim byte copy of
a source file, a serialized merged document with the given pages, or a
truncated remnant of a failed write. -/
inductive OutContent where
  | fileCopy (f : PdfFile)
  | mergedDoc (pages : List Nat)
  | truncated
  deriving Repr, DecidableEq

/-- Everything about one run of `merge_pdfs` that the environment
decides: whether the requirement check and the directory validation
succeed, the candidate files `glob("*.pdf")` enumerates, whether
`shutil.copy2` succeeds in the single-file branch, the generated output
filename, and the behaviour of the write/verify steps. -/
structure Env where
  reqOk : Bool
  dirOk : Bool
  candidates : List PdfFile
  copyOk : Bool
  outName : String
  wenv : WriteEnv
  deriving Repr, DecidableEq

/-- How one run of `merge_pdfs` ends. -/
inductive RunOutcome where
  | reqFailed
  | dirFailed
  | noValidFiles
  | copiedSingle (f : PdfFile)
  | copyFailed (f : PdfFile)
  | didMerge (r : MergeResult)
  deriving Repr, DecidableEq

/-- Function `merge_pdfs` (src/main.py lines 257-315): requirement check,
directory validation, discovery, the zero-file abort, the single-file
copy branch, and otherwise sort followed by `merge_pdf_files`.  The
second component is the list of entries the run adds to the output
directory: nothing on the abort paths, the byte copy on a successful
single-file copy, and on the merge path the serialized document (a
failed write leaves a truncated remnant, a write whose output does not
persist leaves nothing). -/
def merge_pdfs (env : Env) : RunOutcome × List (String × OutContent) :=
  if !env.reqOk then (.reqFailed, [])
  else if !env.dirOk then (.dirFailed, [])
  else
    match find_and_validate_pdf_files env.candidates with
    | [] => (.noValidFiles, [])
    | f :: rest =>
      if (f :: rest).length < 2 then
        if env.copyOk then
          (.copiedSingle f, [(f.name, .fileCopy f)])
        else
          (.copyFailed f, [])
      else
        let sortedFiles := sort_files_by_preference (f :: rest)
        (.didMerge (merge_pdf_files sortedFiles env.outName env.wenv),
         if env.wenv.writeOk then
           if env.wenv.outputPersists then
             [(env.outName, .mergedDoc (mergeWriter sortedFiles))]
           else []
         else [(env.outName, .truncated)])

/-! Concrete files and environments used in counterexamples and
witnesses. -/

/-- A well-behaved file with the given name and pages. -/
def plainFile (nm : String) (pages : List Nat) : PdfFile :=
  ⟨nm, 100, true, true, some pages.length, pages, none⟩

def exB : PdfFile := plainFile "B.pdf" [10]

def exA : PdfFile := plainFile "a.pdf" [20]

def exC : PdfFile := plainFile "C.pdf" [30]

/-- A file whose discovery-time open reports zero pages. -/
def zeroPageFile : PdfFile := ⟨"z.pdf", 50, true, true, some 0, [], none⟩

/-- A file with no read permission. -/
def unreadableFile : PdfFile := ⟨"u.pdf", 50, true, false, some 3, [1, 2, 3], none⟩

/-- A valid one-page file that also merges cleanly. -/
def okFile1 : PdfFile := ⟨"ok.pdf", 100, true, true, some 1, [1], none⟩

/-- A file that passes validation but raises mid-merge, after one of its
two pages has already been added to the writer. -/
def midFailFile : PdfFile := ⟨"bad.pdf", 200, true, true, some 2, [2, 3], some 1⟩

/-- A file that passes validation but whose merge-time re-open fails. -/
def openFailFile : PdfFile := ⟨"of.pdf", 60, true, true, some 1, [7], some 0⟩

/-- A write environment in which the write raises no exception and the
output file persists. -/
def envOk : WriteEnv := ⟨true, "", "", true, 1000⟩

/-- Write environment in which `writer.write` raises. -/
def envWriteFail : WriteEnv := ⟨false, "disk full", "OSError", true, 0⟩

/-- Write environment in which the write raises nothing but the output
file does not exist afterwards. -/
def envVanish : WriteEnv := ⟨true, "", "", false, 0⟩

/-! Order facts about the comparison used by the sort. -/

theorem lexLe_refl : ∀ as : List Nat, lexLe as as = true
  | [] => rfl
  | a :: as => by simp [lexLe, lexLe_refl as]

theorem lexLe_total : ∀ as bs : List Nat, lexLe as bs = true ∨ lexLe bs as = true
  | [], _ => Or.inl rfl
  | _ :: _, [] => Or.inr rfl
  | a :: as, b :: bs => by
    rcases Nat.lt_trichotomy a b with h | h | h
    · exact Or.inl (by simp [lexLe, h])
    · subst h
      rcases lexLe_total as bs with h' | h' <;>
        [exact Or.inl (by simp [lexLe, h']); exact Or.inr (by simp [lexLe, h'])]
    · exact Or.inr (by simp [lexLe, h])

theorem lexLe_trans : ∀ {as bs cs : List Nat},
    lexLe as bs = true → lexLe bs cs = true → lexLe as cs = true
  | [], _, _, _, _ => rfl
  | _ :: _, [], _, h, _ => by simp [lexLe] at h
  | _ :: _, _ :: _, [], _, h => by simp [lexLe] at h
  | a :: as, b :: bs, c :: cs, h1, h2 => by
    simp only [lexLe] at h1 h2 ⊢
    split at h1
    · rename_i hab
      split at h2
      · rename_i hbc
        simp [Nat.lt_trans hab hbc]
      · split at h2
        · simp at h2
        · have hbc' : b = c := by omega
          subst hbc'
          simp [hab]
    · split at h1
      · simp at h1
      · have hab' : a = b := by omega
        subst hab'
        split at h2
        · rename_i hac
          simp [hac]
        · split at h2
          · simp at h2
          · simp_all [lexLe_trans h1 h2]

/-- Relation `nameLe` holds both ways between files with the same key. -/
theorem nameLe_of_key_eq {a b : PdfFile} (h : nameKey a = nameKey b) : nameLe a b := by
  unfold nameLe
  rw [h]
  exact lexLe_refl _

/-! Characterization of the merge loop. -/

theorem foldl_stepFile : ∀ (fs : List PdfFile) (st : MergeState),
    fs.foldl stepFile st =
      ⟨st.writerPages ++ fs.flatMap contributedPages,
       st.total_pages + nonFailedPageSum fs,
       st.file_info ++ (fs.filter mergeOk).map infoOf⟩
  | [], st => by simp [nonFailedPageSum]
  | f :: fs, st => by
    rw [List.foldl_cons, foldl_stepFile fs]
    cases h : f.mergeFail with
    | none =>
        simp [stepFile, h, contributedPages, mergeOk, nonFailedPageSum,
          List.filter_cons, Nat.add_assoc]
    | some k =>
        simp [stepFile, h, contributedPages, mergeOk, nonFailedPageSum,
          List.filter_cons]

theorem mergeWriter_eq (fs : List PdfFile) :
    mergeWriter fs = fs.flatMap contributedPages := by
  simp [mergeWriter, mergeLoop, foldl_stepFile]

theorem mergeLoop_total (fs : List PdfFile) :
    (mergeLoop fs).total_pages = nonFailedPageSum fs := by
  simp [mergeLoop, foldl_stepFile]

theorem mergeLoop_info (fs : List PdfFile) :
    (mergeLoop fs).file_info = (fs.filter mergeOk).map infoOf := by
  simp [mergeLoop, foldl_stepFile]

theorem contributed_length_sum : ∀ fs : List PdfFile,
    (fs.map fun f => (contributedPages f).length).sum =
      nonFailedPageSum fs + strayPageSum fs
  | [] => by simp [nonFailedPageSum, strayPageSum]
  | f :: fs => by
    have ih := contributed_length_sum fs
    cases h : f.mergeFail with
    | none =>
        simp [nonFailedPageSum, strayPageSum, mergeOk, List.filter_cons, h,
          contributedPages] at ih ⊢
        omega
    | some k =>
        simp [nonFailedPageSum, strayPageSum, mergeOk, List.filter_cons, h,
          contributedPages] at ih ⊢
        omega

theorem mergeWriter_length (fs : List PdfFile) :
    (mergeWriter fs).length = nonFailedPageSum fs + strayPageSum fs := by
  rw [mergeWriter_eq, List.length_flatMap, ← contributed_length_sum]
  rfl

theorem info_pages_sum (fs : List PdfFile) :
    (((fs.filter mergeOk).map infoOf).map FileInfo.pages).sum =
      nonFailedPageSum fs := by
  simp only [List.map_map, nonFailedPageSum]
  rfl

/-- When every failing file fails before any page is appended, the
failed files contribute no pages at all. -/
theorem strayPageSum_zero {fs : List PdfFile}
    (h : ∀ f ∈ fs, f.mergeFail = none ∨ f.mergeFail = some 0) :
    strayPageSum fs = 0 := by
  apply List.sum_eq_zero
  intro x hx
  rcases List.mem_map.mp hx with ⟨f, hf, rfl⟩
  have hmem := List.mem_filter.mp hf
  rcases h f hmem.1 with h0 | h0
  · simp [mergeOk, h0] at hmem
  · simp [contributedPages, h0]

/-- C1 (counterexample): with two documents — one clean one-page file
and one that passes validation but raises after one of its two pages is
already in the writer — the merge returns a successful result, yet the
accumulated output holds 2 pages while the sum of the page counts of the
documents that did not fail mid-merge (which is also `total_pages`) is
only 1: the claimed equality between the output's page count and that
sum fails, because pages appended before a mid-file failure are not
rolled back. -/
theorem C1_counterexample :
    2 ≤ [okFile1, midFailFile].length ∧
    merge_pdf_files [okFile1, midFailFile] "merged.pdf" envOk =
      .ok "merged.pdf" 1 2 1000 [⟨"ok.pdf", 1, 100⟩] ∧
    nonFailedPageSum [okFile1, midFailFile] = 1 ∧
    (mergeWriter [okFile1, midFailFile]).length ≠
      nonFailedPageSum [okFile1, midFailFile] := by
  refine ⟨by decide, by decide, by decide, by decide⟩

/-- C1 (amended): for any ≥2 documents, when the write succeeds and the
output persists, the successful Merge Result reports
`total_pages` = the sum of the page counts of the documents that did not
fail mid-merge; the accumulated output's page count is that sum plus the
pages left behind by mid-merge failures, and so equals the sum exactly
when every failure happens before any page of its file is appended. -/
theorem C1_total_pages (fs : List PdfFile) (outName : String)
    (env : WriteEnv) (hn : 2 ≤ fs.length) (hw : env.writeOk = true)
    (hp : env.outputPersists = true) :
    merge_pdf_files fs outName env =
      .ok outName (nonFailedPageSum fs) fs.length env.outputSize
        ((fs.filter mergeOk).map infoOf) ∧
    (mergeWriter fs).length = nonFailedPageSum fs + strayPageSum fs ∧
    ((∀ f ∈ fs, f.mergeFail = none ∨ f.mergeFail = some 0) →
      (mergeWriter fs).length = nonFailedPageSum fs) := by
  refine ⟨?_, mergeWriter_length fs, ?_⟩
  · simp [merge_pdf_files, hw, hp, mergeLoop_total, mergeLoop_info]
  · intro hall
    rw [mergeWriter_length, strayPageSum_zero hall]
    exact Nat.add_zero _

/-- C1 (witness): the amended statement applied to the two-file
counterexample input. -/
theorem C1_total_pages_witness :
    merge_pdf_files [okFile1, midFailFile] "m.pdf" envOk =
      .ok "m.pdf" (nonFailedPageSum [okFile1, midFailFile]) 2 1000
        (([okFile1, midFailFile].filter mergeOk).map infoOf) ∧
    (mergeWriter [okFile1, midFailFile]).length =
      nonFailedPageSum [okFile1, midFailFile] +
        strayPageSum [okFile1, midFailFile] :=
  ⟨(C1_total_pages [okFile1, midFailFile] "m.pdf" envOk (by decide)
      (by decide) (by decide)).1,
   (C1_total_pages [okFile1, midFailFile] "m.pdf" envOk (by decide)
      (by decide) (by decide)).2.1⟩

/-- C2 (counterexample): a document whose merge-time re-open fails
contributes none of its pages, so the accumulated output is not the
concatenation of all the given documents' pages. -/
theorem C2_counterexample :
    mergeWriter [openFailFile, okFile1] = [1] ∧
    [openFailFile, okFile1].flatMap PdfFile.mergePages = [7, 1] ∧
    mergeWriter [openFailFile, okFile1] ≠
      [openFailFile, okFile1].flatMap PdfFile.mergePages := by
  refine ⟨by decide, by decide, by decide⟩

/-- C2 (amended): the accumulated output is the concatenation, over the
documents in the order given, of the pages each document actually left
in the writer — all of its pages, in original intra-document order, for
a document that did not fail, and the already-appended prefix for one
that failed mid-merge; in particular, when no document fails it is
exactly the concatenation of all pages in the given document order. -/
theorem C2_page_order (fs : List PdfFile) :
    mergeWriter fs = fs.flatMap contributedPages ∧
    ((∀ f ∈ fs, f.mergeFail = none) →
      mergeWriter fs = fs.flatMap fun f => f.mergePages) := by
  refine ⟨mergeWriter_eq fs, ?_⟩
  intro hall
  rw [mergeWriter_eq]
  induction fs with
  | nil => rfl
  | cons f fs ih =>
      rw [List.flatMap_cons, List.flatMap_cons,
        ih fun g hg => hall g (List.mem_cons_of_mem f hg)]
      simp [contributedPages, hall f (List.mem_cons_self f fs)]

/-- C2 (witness): the amended statement applied to a concrete two-file
input with no mid-merge failure. -/
theorem C2_page_order_witness :
    mergeWriter [exB, exA] = [exB, exA].flatMap fun f => f.mergePages :=
  (C2_page_order [exB, exA]).2 (by decide)

/-- C3: the ordering policy is an ascending sort by the case-insensitive
filename key, it permutes the discovered documents, ties on the key keep
their discovery order (stability, stated as key-class preservation), and
the names `["B.pdf", "a.pdf", "C.pdf"]` come out as
`a.pdf, B.pdf, C.pdf`. -/
theorem C3_sort_order :
    (∀ l : List PdfFile,
      List.Sorted nameLe (sort_files_by_preference l) ∧
      List.Perm (sort_files_by_preference l) l ∧
      ∀ k : List Nat,
        (sort_files_by_preference l).filter (fun f => decide (nameKey f = k)) =
          l.filter fun f => decide (nameKey f = k)) ∧
    (sort_files_by_preference [exB, exA, exC]).map PdfFile.name =
      ["a.pdf", "B.pdf", "C.pdf"] := by
  constructor
  · intro l
    refine ⟨?_, ?_, ?_⟩
    · exact @List.sorted_insertionSort PdfFile nameLe _
        ⟨fun a b => lexLe_total _ _⟩ ⟨fun a b c h1 h2 => lexLe_trans h1 h2⟩ l
    · exact List.perm_insertionSort nameLe l
    · intro k
      have hsub : List.Sublist (l.filter fun f => decide (nameKey f = k)) l :=
        List.filter_sublist l
      have hpw : (l.filter fun f => decide (nameKey f = k)).Pairwise nameLe := by
        apply List.pairwise_of_forall_mem_list
        intro a ha b hb
        have ha' := (List.mem_filter.mp ha).2
        have hb' := (List.mem_filter.mp hb).2
        simp only [decide_eq_true_eq] at ha' hb'
        exact nameLe_of_key_eq (ha'.trans hb'.symm)
      have h2 : List.Sublist (l.filter fun f => decide (nameKey f = k))
          (l.insertionSort nameLe) :=
        List.sublist_insertionSort hpw hsub
      have h3 : ((l.filter fun f => decide (nameKey f = k)).filter
          fun f => decide (nameKey f = k)) =
            l.filter fun f => decide (nameKey f = k) :=
        List.filter_eq_self.mpr fun a ha => (List.mem_filter.mp ha).2
      have h4 : List.Sublist (l.filter fun f => decide (nameKey f = k))
          ((l.insertionSort nameLe).filter fun f => decide (nameKey f = k)) := by
        rw [← h3]
        exact h2.filter _
      have h5 : ((l.insertionSort nameLe).filter
          fun f => decide (nameKey f = k)).length =
            (l.filter fun f => decide (nameKey f = k)).length :=
        ((List.perm_insertionSort nameLe l).filter _).length_eq
      exact (h4.eq_of_length h5.symm).symm
  · decide

/-- C4: when discovery yields exactly one valid document, the Merge
Engine is never invoked (the outcome is never `didMerge`, so no Merge
Result exists); when the copy succeeds the run ends with the single
file byte-copied verbatim into the output directory under its original
filename, and even a failed copy produces no Merge Result. -/
theorem C4_single_file_copy (env : Env) (f : PdfFile)
    (hreq : env.reqOk = true) (hdir : env.dirOk = true)
    (hone : find_and_validate_pdf_files env.candidates = [f]) :
    (∀ r : MergeResult, (merge_pdfs env).1 ≠ .didMerge r) ∧
    (env.copyOk = true →
      merge_pdfs env = (.copiedSingle f, [(f.name, .fileCopy f)])) ∧
    (env.copyOk = false → merge_pdfs env = (.copyFailed f, [])) := by
  cases hc : env.copyOk <;>
    simp [merge_pdfs, hreq, hdir, hone, hc]

/-- C4 (witness): a run whose input directory holds a single valid file
next to an unreadable candidate ends with the verbatim copy and no
Merge Result. -/
theorem C4_single_file_copy_witness :
    merge_pdfs ⟨true, true, [unreadableFile, okFile1], true, "m.pdf", envOk⟩ =
      (.copiedSingle okFile1, [("ok.pdf", .fileCopy okFile1)]) :=
  (C4_single_file_copy
      ⟨true, true, [unreadableFile, okFile1], true, "m.pdf", envOk⟩ okFile1
      (by decide) (by decide) (by decide)).2.1 (by decide)

/-- C5: when discovery yields zero valid documents, the run aborts with
the no-valid-files error before the Merge Engine is reached and adds no
entry to the output directory. -/
theorem C5_zero_valid_aborts (env : Env)
    (hreq : env.reqOk = true) (hdir : env.dirOk = true)
    (hzero : find_and_validate_pdf_files env.candidates = []) :
    merge_pdfs env = (.noValidFiles, []) := by
  simp [merge_pdfs, hreq, hdir, hzero]

/-- C5 (witness): a run whose only candidates are an unreadable file and
a zero-page file aborts with no output. -/
theorem C5_zero_valid_aborts_witness :
    merge_pdfs ⟨true, true, [unreadableFile, zeroPageFile], true, "m.pdf", envOk⟩ =
      (.noValidFiles, []) :=
  C5_zero_valid_aborts
    ⟨true, true, [unreadableFile, zeroPageFile], true, "m.pdf", envOk⟩
    (by decide) (by decide) (by decide)

/-- C6: the validator applies the predicates in the order existence,
readability, non-zero byte size, successful codec open, page count ≥ 1,
short-circuiting on the first failure (`validateFile` coincides with the
spec-shaped `firstFailing`); a candidate survives discovery exactly when
it is a candidate passing every check; a zero-page document is excluded
by discovery and never reaches the sorted merge input; and an invalid
candidate never aborts discovery of the remaining candidates. -/
theorem C6_validation_pipeline :
    (∀ f : PdfFile, validateFile f = firstFailing f) ∧
    (∀ (l : List PdfFile) (f : PdfFile),
      f ∈ find_and_validate_pdf_files l ↔ f ∈ l ∧ validateFile f = none) ∧
    (∀ (l : List PdfFile) (f : PdfFile), f.readPages = some 0 →
      f ∉ find_and_validate_pdf_files l ∧
      f ∉ sort_files_by_preference (find_and_validate_pdf_files l)) ∧
    (∀ (pre post : List PdfFile) (bad : PdfFile),
      (validateFile bad).isSome = true →
      find_and_validate_pdf_files (pre ++ bad :: post) =
        find_and_validate_pdf_files pre ++ find_and_validate_pdf_files post) := by
  have hmem : ∀ (l : List PdfFile) (f : PdfFile),
      f ∈ find_and_validate_pdf_files l ↔ f ∈ l ∧ validateFile f = none := by
    intro l f
    simp [find_and_validate_pdf_files, List.mem_filter,
      Option.isNone_iff_eq_none]
  refine ⟨?_, hmem, ?_, ?_⟩
  · intro f
    rcases f with ⟨nm, sz, fe, rd, rp, mp, mf⟩
    cases fe <;> cases rd <;> rcases rp with _ | n <;>
      simp [validateFile, firstFailing, specChecks, List.findSome?] <;>
      split_ifs <;> simp_all
  · intro l f h0
    have hv : validateFile f ≠ none := by
      unfold validateFile
      rw [h0]
      split_ifs <;> simp
    have hnot : f ∉ find_and_validate_pdf_files l := fun hf =>
      hv ((hmem l f).mp hf).2
    refine ⟨hnot, fun hf => hnot ?_⟩
    exact (List.perm_insertionSort nameLe
      (find_and_validate_pdf_files l)).mem_iff.mp hf
  · intro pre post bad hbad
    unfold find_and_validate_pdf_files
    rw [List.filter_append, List.filter_cons]
    cases h : validateFile bad with
    | none => rw [h] at hbad; simp at hbad
    | some r => simp [h]

/-- C6 (witness): concrete instances — discovery drops a zero-page file
and an unreadable file while keeping the valid neighbours, and the
unreadable candidate in the middle does not disturb discovery of the
rest. -/
theorem C6_validation_pipeline_witness :
    zeroPageFile ∉ find_and_validate_pdf_files [exB, zeroPageFile, exA] ∧
    find_and_validate_pdf_files ([exB] ++ unreadableFile :: [exA]) =
      find_and_validate_pdf_files [exB] ++ find_and_validate_pdf_files [exA] :=
  ⟨(C6_validation_pipeline.2.2.1 [exB, zeroPageFile, exA] zeroPageFile
      (by decide)).1,
   C6_validation_pipeline.2.2.2 [exB] [exA] unreadableFile (by decide)⟩

/-- C7: a document that fails during the merge pass (its re-open or a
page append raises, after `k` appended pages) adds nothing to the
reported page count and nothing to the per-file info list, and the
remaining documents are still merged exactly as they would be without
it; the writer keeps only the `k` already-appended pages of the failed
document, between the contributions of the surrounding documents. -/
theorem C7_failed_file_skipped (pre post : List PdfFile) (f : PdfFile)
    (k : Nat) (hf : f.mergeFail = some k) :
    (mergeLoop (pre ++ f :: post)).total_pages =
      (mergeLoop (pre ++ post)).total_pages ∧
    (mergeLoop (pre ++ f :: post)).file_info =
      (mergeLoop (pre ++ post)).file_info ∧
    mergeWriter (pre ++ f :: post) =
      mergeWriter pre ++ f.mergePages.take k ++ mergeWriter post := by
  have hok : mergeOk f = false := by simp [mergeOk, hf]
  refine ⟨?_, ?_, ?_⟩
  · simp [mergeLoop_total, nonFailedPageSum, List.filter_append,
      List.filter_cons, hok]
  · simp [mergeLoop_info, List.filter_append, List.filter_cons, hok]
  · simp [mergeWriter_eq, List.flatMap_append, List.flatMap_cons,
      contributedPages, hf, List.append_assoc]

/-- C7 (witness): the mid-merge failure of `midFailFile` between two
good files leaves the counter and info list as if it were absent, while
its one already-appended page stays in the writer. -/
theorem C7_failed_file_skipped_witness :
    (mergeLoop ([okFile1] ++ midFailFile :: [exA])).total_pages =
      (mergeLoop ([okFile1] ++ [exA])).total_pages ∧
    mergeWriter ([okFile1] ++ midFailFile :: [exA]) =
      mergeWriter [okFile1] ++ midFailFile.mergePages.take 1 ++
        mergeWriter [exA] :=
  ⟨(C7_failed_file_skipped [okFile1] [exA] midFailFile 1 (by decide)).1,
   (C7_failed_file_skipped [okFile1] [exA] midFailFile 1 (by decide)).2.2⟩

/-- C8: the Merge Engine fails in exactly two situations — an exception
during the write produces a failure result carrying the error string
and its exception-class tag, and a quiet write whose destination does
not exist afterwards produces the generic `Output file not created`
failure with no tag; otherwise it returns a success result carrying the
output byte size. -/
theorem C8_result_cases (fs : List PdfFile) (outName : String)
    (env : WriteEnv) :
    (env.writeOk = false →
      merge_pdf_files fs outName env =
        .err env.writeErr (some env.writeErrType)) ∧
    (env.writeOk = true → env.outputPersists = false →
      merge_pdf_files fs outName env =
        .err "Output file not created" none) ∧
    (env.writeOk = true → env.outputPersists = true →
      merge_pdf_files fs outName env =
        .ok outName (mergeLoop fs).total_pages fs.length env.outputSize
          (mergeLoop fs).file_info) :=
  ⟨fun h1 => by simp [merge_pdf_files, h1],
   fun h1 h2 => by simp [merge_pdf_files, h1, h2],
   fun h1 h2 => by simp [merge_pdf_files, h1, h2]⟩

/-- C8 (witness): the three result shapes at concrete environments. -/
theorem C8_result_cases_witness :
    merge_pdf_files [okFile1] "m.pdf" envWriteFail =
      .err "disk full" (some "OSError") ∧
    merge_pdf_files [okFile1] "m.pdf" envVanish =
      .err "Output file not created" none ∧
    merge_pdf_files [okFile1] "m.pdf" envOk =
      .ok "m.pdf" (mergeLoop [okFile1]).total_pages 1 1000
        (mergeLoop [okFile1]).file_info :=
  ⟨(C8_result_cases [okFile1] "m.pdf" envWriteFail).1 rfl,
   (C8_result_cases [okFile1] "m.pdf" envVanish).2.1 rfl rfl,
   (C8_result_cases [okFile1] "m.pdf" envOk).2.2 rfl rfl⟩

/-- C9: when every document fails during the merge pass, the engine
still writes the accumulator out and — provided the write succeeds and
the output persists — returns success with `total_pages = 0` and an
empty per-file info list; when moreover every failure strikes before
any page is appended, the serialized accumulator is empty. -/
theorem C9_all_failed_still_success (fs : List PdfFile) (outName : String)
    (env : WriteEnv) (hall : ∀ f ∈ fs, (f.mergeFail).isSome = true)
    (hw : env.writeOk = true) (hp : env.outputPersists = true) :
    merge_pdf_files fs outName env =
      .ok outName 0 fs.length env.outputSize [] ∧
    ((∀ f ∈ fs, f.mergeFail = some 0) → mergeWriter fs = []) := by
  have hfil : fs.filter mergeOk = [] := by
    rw [List.filter_eq_nil_iff]
    intro f hf
    have hs := hall f hf
    cases h : f.mergeFail with
    | none => rw [h] at hs; simp at hs
    | some k => simp [mergeOk, h]
  constructor
  · have ht : (mergeLoop fs).total_pages = 0 := by
      rw [mergeLoop_total]
      unfold nonFailedPageSum
      rw [hfil]
      rfl
    have hi : (mergeLoop fs).file_info = [] := by
      rw [mergeLoop_info, hfil]
      rfl
    simp [merge_pdf_files, hw, hp, ht, hi]
  · intro h0
    have hlen : (mergeWriter fs).length = 0 := by
      rw [mergeWriter_length, strayPageSum_zero fun f hf => Or.inr (h0 f hf)]
      unfold nonFailedPageSum
      rw [hfil]
      rfl
    exact List.length_eq_zero.mp hlen

/-- C9 (witness): a single document whose merge-time open fails still
yields a successful empty merge. -/
theorem C9_all_failed_still_success_witness :
    merge_pdf_files [openFailFile] "m.pdf" envOk =
      .ok "m.pdf" 0 1 1000 [] ∧
    mergeWriter [openFailFile] = [] :=
  ⟨(C9_all_failed_still_success [openFailFile] "m.pdf" envOk (by decide)
      rfl rfl).1,
   (C9_all_failed_still_success [openFailFile] "m.pdf" envOk (by decide)
      rfl rfl).2 (by decide)⟩

/-- C10: every successful Merge Result has `total_pages` equal to the
sum of the per-file `pages` fields, its `file_info` is exactly the
successfully merged files in processing order, and `total_files` counts
every document handed to the engine — and it can strictly exceed the
length of `file_info`. -/
theorem C10_result_invariants :
    (∀ (fs : List PdfFile) (outName : String) (env : WriteEnv)
      (out : String) (tp tf osz : Nat) (infos : List FileInfo),
      merge_pdf_files fs outName env = .ok out tp tf osz infos →
      tp = (infos.map FileInfo.pages).sum ∧
      infos = (fs.filter mergeOk).map infoOf ∧
      tf = fs.length) ∧
    (∃ (fs : List PdfFile) (env : WriteEnv) (out : String)
      (tp tf osz : Nat) (infos : List FileInfo),
      merge_pdf_files fs out env = .ok out tp tf osz infos ∧
      infos.length < tf) := by
  constructor
  · intro fs outName env out tp tf osz infos h
    simp only [merge_pdf_files] at h
    split at h
    · split at h
      · simp only [MergeResult.ok.injEq] at h
        obtain ⟨h1, h2, h3, h4, h5⟩ := h
        subst h2
        subst h3
        subst h5
        refine ⟨?_, mergeLoop_info fs, rfl⟩
        rw [mergeLoop_info, mergeLoop_total, info_pages_sum]
      · simp at h
    · simp at h
  · exact ⟨[okFile1, midFailFile], envOk, "m.pdf", 1, 2, 1000,
      [⟨"ok.pdf", 1, 100⟩], by decide, by decide⟩

/-- C10 (witness): the invariants instantiated on a successful merge in
which one of the two documents failed mid-merge. -/
theorem C10_result_invariants_witness :
    (1 : Nat) = ([(⟨"ok.pdf", 1, 100⟩ : FileInfo)].map FileInfo.pages).sum ∧
    [(⟨"ok.pdf", 1, 100⟩ : FileInfo)] =
      ([okFile1, midFailFile].filter mergeOk).map infoOf ∧
    (2 : Nat) = [okFile1, midFailFile].length :=
  C10_result_invariants.1 [okFile1, midFailFile] "m.pdf" envOk "m.pdf"
    1 2 1000 [⟨"ok.pdf", 1, 100⟩] (by decide)

end PDFMerger
